import Mathlib

/-!
Shallow embedding of django-appsettings' setting-resolution and validation
engine (src/appsettings/settings.py, src/appsettings/__init__.py,
src/appsettings/validators.py).
-/

/-- Model of the Python values flowing through the settings engine. -/
inductive PyVal where
  | none : PyVal
  | bool (b : Bool) : PyVal
  | int (n : Int) : PyVal
  | str (s : String) : PyVal
  | list (xs : List PyVal) : PyVal
  | tuple (xs : List PyVal) : PyVal
  | dict (entries : List (String × PyVal)) : PyVal
  | producerObj : PyVal
  deriving Repr

/-- Model of the Python exceptions raised by the engine. -/
inductive PyErr where
  | attributeError (msg : String) : PyErr
  | keyError (key : String) : PyErr
  | improperlyConfigured (msg : String) : PyErr
  | validationError (msgs : List String) : PyErr
  | valueError (msg : String) : PyErr
  | typeError (msg : String) : PyErr
  | importError (msg : String) : PyErr
  | indexError : PyErr
  deriving Repr, DecidableEq

/-- A default is either a plain value or a zero-argument callable producer
(`callable(self.default)` distinguishes the two in the source). -/
inductive Dflt where
  | value (v : PyVal) : Dflt
  | producer (f : Unit → PyVal) : Dflt

/-- A validator either passes (empty list) or fails with the messages of the
ValidationError it raises. -/
def Validator := PyVal → List String

/-- The data every Setting instance carries (Setting.__init__). -/
structure SettingData where
  name : String
  pfx : String
  required : Bool
  callDefault : Bool
  transformDefault : Bool
  dflt : Dflt
  validators : List Validator
  validateHook : Validator
  transform : PyVal → PyVal
  decodeEnviron : String → Except PyErr PyVal

/-- The tree of settings: plain settings, nested-dict composites holding
named children, nested-list composites holding one inner setting. -/
inductive SettingTree where
  | leaf (d : SettingData) : SettingTree
  | nestedDict (d : SettingData) (children : List (String × SettingTree)) : SettingTree
  | nestedList (d : SettingData) (inner : SettingTree) : SettingTree

def SettingTree.data : SettingTree → SettingData
  | .leaf d => d
  | .nestedDict d _ => d
  | .nestedList d _ => d

/-- Python str.upper over the characters (kernel-computable rendering of
String.toUpper). -/
def upperStr (s : String) : String := ⟨s.data.map Char.toUpper⟩

/-- Python str.lower over the characters. -/
def lowerStr (s : String) : String := ⟨s.data.map Char.toLower⟩

/-- Setting.full_name: upper prefix + upper name. -/
def fullName (d : SettingData) : String :=
  upperStr d.pfx ++ upperStr d.name

/-- Setting.default_value: call the default iff it is callable and
call_default is true; a callable left uncalled is the opaque callable
object itself. -/
def SettingData.defaultValue (d : SettingData) : PyVal :=
  match d.dflt with
  | .value v => v
  | .producer f => if d.callDefault then f () else .producerObj

mutual

/-- Rendering of a Python value as str() does, used in validator messages. -/
def pyStr : PyVal → String
  | .none => "None"
  | .bool true => "True"
  | .bool false => "False"
  | .int n => toString n
  | .str s => s
  | .list xs => "[" ++ String.intercalate ", " (pyStrList xs) ++ "]"
  | .tuple xs => "(" ++ String.intercalate ", " (pyStrList xs) ++ ")"
  | .dict es => "\x7b" ++ String.intercalate ", " (pyStrEntries es) ++ "\x7d"
  | .producerObj => "<callable>"

def pyStrList : List PyVal → List String
  | [] => []
  | x :: xs => pyStr x :: pyStrList xs

def pyStrEntries : List (String × PyVal) → List String
  | [] => []
  | (k, v) :: es => (k ++ ": " ++ pyStr v) :: pyStrEntries es

end

/-- isinstance(v, bool). -/
def isBool : PyVal → Bool
  | .bool _ => true
  | _ => false

/-- isinstance(v, int): Python's bool is a subclass of int, so booleans
pass the int instance check. -/
def isInt : PyVal → Bool
  | .bool _ => true
  | .int _ => true
  | _ => false

/-- isinstance(v, str). -/
def isStr : PyVal → Bool
  | .str _ => true
  | _ => false

/-- isinstance(v, dict). -/
def isDict : PyVal → Bool
  | .dict _ => true
  | _ => false

/-- TypeValidator: fails with its templated message unless the isinstance
check holds (validators.py, TypeValidator.__call__). -/
def typeValidator (inst : PyVal → Bool) (tname : String) : Validator :=
  fun v => if inst v then [] else ["Value " ++ pyStr v ++ " is not of type " ++ tname ++ "."]

/-- Numeric view used by the bound validators; Python compares booleans as
0 and 1. -/
def pyNumQ : PyVal → Option Int
  | .bool b => some (if b then 1 else 0)
  | .int n => some n
  | _ => Option.none

/-- Django MinValueValidator on a setting value; values that Python could
not compare with an int would raise TypeError, never reached by the
claims below. -/
def minValueValidator (lim : Int) : Validator :=
  fun v =>
    match pyNumQ v with
    | some n =>
      if n < lim then ["Ensure this value is greater than or equal to " ++ toString lim ++ "."] else []
    | Option.none => ["unorderable value"]

/-- Django MaxValueValidator, analogous. -/
def maxValueValidator (lim : Int) : Validator :=
  fun v =>
    match pyNumQ v with
    | some n =>
      if lim < n then ["Ensure this value is less than or equal to " ++ toString lim ++ "."] else []
    | Option.none => ["unorderable value"]

/-- Message of the AttributeError Django raises when a name is absent from
the project settings. -/
def attrErrMsg (fn : String) : String :=
  "\x27Settings\x27 object has no attribute \x27" ++ fn ++ "\x27"

/-- Setting._reraise_if_required message for a top-level miss. -/
def requiredMsg (fn errText : String) : String :=
  fn ++ " setting is required and " ++ errText

/-- Setting._reraise_if_required message when a KeyError came from a
composite parent's container; Python renders the KeyError as the quoted
key. -/
def missingItemMsg (parentFn key : String) : String :=
  parentFn ++ " setting is missing required item \x27" ++ key ++ "\x27"

/-- str() of a Django ValidationError holding a list of messages. -/
def renderMessages (msgs : List String) : String :=
  "[" ++ String.intercalate ", " (msgs.map (fun m => "\x27" ++ m ++ "\x27")) ++ "]"

/-- Setting.check's wrapping message for validation failures. -/
def invalidValueMsg (fn : String) (msgs : List String) : String :=
  "Setting " ++ fn ++ " has an invalid value: " ++ renderMessages msgs

def notIterableMsg : String := "object is not iterable"

def notSubscriptableMsg : String := "object is not subscriptable"

/-- The external configuration sources: os.environ (string-valued,
deprecated channel, consulted first) and django.conf.settings. -/
structure Env where
  environ : List (String × String)
  conf : List (String × PyVal)

/-- Setting.raw_value for a setting with no parent: consult os.environ
first (decoding per subtype), then the project settings, else
AttributeError. -/
def rawTop (E : Env) (t : SettingTree) : Except PyErr PyVal :=
  let fn := fullName t.data
  match E.environ.lookup fn with
  | some s => t.data.decodeEnviron s
  | Option.none =>
    match E.conf.lookup fn with
    | some v => .ok v
    | Option.none => .error (.attributeError (attrErrMsg fn))

/-- Setting.raw_value for a child of a NestedDictSetting: index the
parent's raw container by the child's full name; KeyError when absent,
TypeError when the container is not a mapping. -/
def childRawFromDict (container : PyVal) (key : String) : Except PyErr PyVal :=
  match container with
  | .dict es =>
    match es.lookup key with
    | some v => .ok v
    | Option.none => .error (.keyError key)
  | _ => .error (.typeError notSubscriptableMsg)

mutual

/-- Setting.transform of the tree: identity for plain settings and for
the dict composite (DictSetting inherits Setting.transform), and
NestedListSetting.transform maps the inner setting's transform over the
items, producing a tuple. -/
def treeTransform : SettingTree → PyVal → Except PyErr PyVal
  | .leaf d, v => .ok (d.transform v)
  | .nestedDict _ _, v => .ok v
  | .nestedList _ inner, v =>
    match v with
    | .list xs => (transformItems inner xs).map PyVal.tuple
    | .tuple xs => (transformItems inner xs).map PyVal.tuple
    | _ => .error (.typeError notIterableMsg)
termination_by t _ => (sizeOf t, 0)

def transformItems (inner : SettingTree) : List PyVal → Except PyErr (List PyVal)
  | [] => .ok []
  | x :: xs =>
    match treeTransform inner x with
    | .error e => .error e
    | .ok y => (transformItems inner xs).map (fun ys => y :: ys)
termination_by xs => (sizeOf inner, xs.length + 1)

end

/-- The default-fallback tail of get_value: return the default value,
transformed iff transform_default. -/
def defaultResult (t : SettingTree) : Except PyErr PyVal :=
  if t.data.transformDefault then treeTransform t t.data.defaultValue
  else .ok t.data.defaultValue

/-- Missing-value branch of get_value: Setting._reraise_if_required then
the default fallback. -/
def missResult (msg : String) (t : SettingTree) : Except PyErr PyVal :=
  if t.data.required then .error (.improperlyConfigured msg)
  else defaultResult t

mutual

/-- get_value of a setting given its already-computed raw lookup result;
pfn is the full name of the enclosing composite (used only in the
KeyError message). Covers Setting.get_value, NestedDictSetting.get_value
and NestedListSetting.get_value: AttributeError and KeyError fall back to
the default (or ImproperlyConfigured when required), other exceptions
propagate; on success a plain setting transforms the raw value, the dict
composite resolves every child through its container, and the list
composite resolves the inner setting positionally into a tuple. -/
def getValueAt (pfn : String) (raw : Except PyErr PyVal) (t : SettingTree) : Except PyErr PyVal :=
  match raw with
  | .error (.attributeError m) => missResult (requiredMsg (fullName t.data) m) t
  | .error (.keyError k) => missResult (missingItemMsg pfn k) t
  | .error e => .error e
  | .ok v =>
    match t with
    | .leaf d => .ok (d.transform v)
    | .nestedDict d children => (getChildren (fullName d) v children).map PyVal.dict
    | .nestedList d inner =>
      match v with
      | .list xs => (getItems (fullName d) inner xs).map PyVal.tuple
      | .tuple xs => (getItems (fullName d) inner xs).map PyVal.tuple
      | _ => .error (.typeError notIterableMsg)
termination_by (sizeOf t, 0)

/-- The child-resolution loop of NestedDictSetting.get_value: each child
reads its raw value out of the parent's container and resolves it with
its own get_value; the first exception propagates. -/
def getChildren (pfn : String) (container : PyVal) (cs : List (String × SettingTree)) :
    Except PyErr (List (String × PyVal)) :=
  match cs with
  | [] => .ok []
  | (key, c) :: rest =>
    match getValueAt pfn (childRawFromDict container (fullName c.data)) c with
    | .error e => .error e
    | .ok v => (getChildren pfn container rest).map (fun vs => (key, v) :: vs)
termination_by (sizeOf cs, 0)

/-- The positional loop of NestedListSetting.get_value: the inner setting
is resolved once per item of the raw sequence. -/
def getItems (pfn : String) (inner : SettingTree) (xs : List PyVal) :
    Except PyErr (List PyVal) :=
  match xs with
  | [] => .ok []
  | x :: rest =>
    match getValueAt pfn (.ok x) inner with
    | .error e => .error e
    | .ok v => (getItems pfn inner rest).map (fun vs => v :: vs)
termination_by (sizeOf inner, xs.length + 1)

end

/-- run_validators: every validator runs; the messages of the failing
ones are concatenated in declaration order (errors.extend). -/
def runValidators (vs : List Validator) (v : PyVal) : List String :=
  match vs with
  | [] => []
  | f :: fs => f v ++ runValidators fs v

/-- Setting.check on the already-computed raw lookup result: a swallowed
miss unless required; on a found value run the custom validate hook, then
(only when the hook passed) all validators, wrapping any failure messages
into one ImproperlyConfigured naming the setting. -/
def checkData (pfn : String) (raw : Except PyErr PyVal) (d : SettingData) : Except PyErr Unit :=
  match raw with
  | .error (.attributeError m) =>
    if d.required then .error (.improperlyConfigured (requiredMsg (fullName d) m)) else .ok ()
  | .error (.keyError k) =>
    if d.required then .error (.improperlyConfigured (missingItemMsg pfn k)) else .ok ()
  | .error e => .error e
  | .ok v =>
    let hook := d.validateHook v
    let msgs := if hook.isEmpty then runValidators d.validators v else hook
    if msgs.isEmpty then .ok () else .error (.improperlyConfigured (invalidValueMsg (fullName d) msgs))

mutual

/-- check of a setting tree. For composites this is NestedDictSetting.check
and NestedListSetting.check: first super().check() (the composite's own
validators), then, when the raw lookup succeeded (and, for the dict
composite, the container is not None), the child loop; each child check is
guarded by `except ValidationError` only, so a child's ImproperlyConfigured
propagates immediately while caught ValidationError messages are collected
and re-raised together. -/
def checkTree (pfn : String) (raw : Except PyErr PyVal) (t : SettingTree) : Except PyErr Unit :=
  match t with
  | .leaf d => checkData pfn raw d
  | .nestedDict d children =>
    match checkData pfn raw d with
    | .error e => .error e
    | .ok _ =>
      match raw with
      | .error (.attributeError _) => .ok ()
      | .error (.keyError _) => .ok ()
      | .error e => .error e
      | .ok v =>
        match v with
        | .none => .ok ()
        | _ =>
          match checkChildren (fullName d) v children with
          | .error e => .error e
          | .ok msgs => if msgs.isEmpty then .ok () else .error (.validationError msgs)
  | .nestedList d inner =>
    match checkData pfn raw d with
    | .error e => .error e
    | .ok _ =>
      match raw with
      | .error (.attributeError m) =>
        if d.required then .error (.improperlyConfigured (requiredMsg (fullName d) m)) else .ok ()
      | .error (.keyError k) =>
        if d.required then .error (.improperlyConfigured (missingItemMsg pfn k)) else .ok ()
      | .error e => .error e
      | .ok v =>
        match v with
        | .list xs =>
          match checkItems (fullName d) inner xs with
          | .error e => .error e
          | .ok msgs => if msgs.isEmpty then .ok () else .error (.validationError msgs)
        | .tuple xs =>
          match checkItems (fullName d) inner xs with
          | .error e => .error e
          | .ok msgs => if msgs.isEmpty then .ok () else .error (.validationError msgs)
        | _ => .error (.typeError notIterableMsg)
termination_by (sizeOf t, 0)

/-- Child loop of NestedDictSetting.check: only ValidationError messages
are collected; any other exception propagates. -/
def checkChildren (pfn : String) (container : PyVal) (cs : List (String × SettingTree)) :
    Except PyErr (List String) :=
  match cs with
  | [] => .ok []
  | (_, c) :: rest =>
    match checkTree pfn (childRawFromDict container (fullName c.data)) c with
    | .ok _ => (checkChildren pfn container rest)
    | .error (.validationError ms) => (checkChildren pfn container rest).map (fun rs => ms ++ rs)
    | .error e => .error e
termination_by (sizeOf cs, 0)

/-- Item loop of NestedListSetting.check, same exception discipline. -/
def checkItems (pfn : String) (inner : SettingTree) (xs : List PyVal) :
    Except PyErr (List String) :=
  match xs with
  | [] => .ok []
  | x :: rest =>
    match checkTree pfn (.ok x) inner with
    | .ok _ => (checkItems pfn inner rest)
    | .error (.validationError ms) => (checkItems pfn inner rest).map (fun rs => ms ++ rs)
    | .error e => .error e
termination_by (sizeOf inner, xs.length + 1)

end

/-- get_value of a top-level setting against the external sources. -/
def getValueTop (E : Env) (t : SettingTree) : Except PyErr PyVal :=
  getValueAt "" (rawTop E t) t

/-- check of a top-level setting against the external sources. -/
def checkTop (E : Env) (t : SettingTree) : Except PyErr Unit :=
  checkTree "" (rawTop E t) t

/-- AppSettings.check: run every registered setting's check, collect the
str() of each ImproperlyConfigured; any other exception propagates. -/
def groupCollect (E : Env) (regs : List (String × SettingTree)) : Except PyErr (List String) :=
  match regs with
  | [] => .ok []
  | (_, t) :: rest =>
    match checkTop E t with
    | .ok _ => groupCollect E rest
    | .error (.improperlyConfigured m) => (groupCollect E rest).map (fun ms => m :: ms)
    | .error e => .error e

/-- AppSettings.check: raise one combined ImproperlyConfigured joining the
collected messages when any setting failed, else return normally. -/
def groupCheck (E : Env) (regs : List (String × SettingTree)) : Except PyErr Unit :=
  match groupCollect E regs with
  | .error e => .error e
  | .ok [] => .ok ()
  | .ok msgs => .error (.improperlyConfigured (String.intercalate "\n" msgs))

/-- The per-instance value cache of an AppSettings instance. -/
structure GroupState where
  cache : List (String × PyVal)

/-- AppSettings.__getattr__: serve the cached value when present,
otherwise resolve via get_value, store it in the cache and return it;
unknown attribute names raise AttributeError. -/
def getattrStep (E : Env) (regs : List (String × SettingTree)) (st : GroupState)
    (item : String) : Except PyErr (PyVal × GroupState) :=
  match regs.lookup item with
  | Option.none => .error (.attributeError item)
  | some t =>
    match st.cache.lookup item with
    | some v => .ok (v, st)
    | Option.none =>
      match getValueTop E t with
      | .error e => .error e
      | .ok v => .ok (v, ⟨(item, v) :: st.cache⟩)

/-- AppSettings.invalidate_cache: the whole per-instance cache is cleared. -/
def invalidateCache (_st : GroupState) : GroupState := ⟨[]⟩

/-- BooleanSetting.decode_environ: the case-insensitive true/yes/1 and
false/no/0 table, else ValueError naming the setting. -/
def booleanDecodeEnviron (fn : String) (value : String) : Except PyErr PyVal :=
  if lowerStr value ∈ ["true", "yes", "1"] then .ok (.bool true)
  else if lowerStr value ∈ ["false", "no", "0"] then .ok (.bool false)
  else .error (.valueError ("Invalid boolean setting " ++ fn ++ " in environ (" ++ value ++ ")"))

/-- A Python object reachable by dotted-path resolution: a tag naming it
and its attribute mapping (getattr). -/
inductive PyObj where
  | node (tag : String) (attrs : List (String × PyObj)) : PyObj

def pyGetattr : PyObj → String → Option PyObj
  | .node _ attrs, a => attrs.lookup a

/-- The importable-modules table standing for importlib.import_module:
dotted module path to module object, None when the import fails. -/
structure ImportEnv where
  modules : List (String × PyObj)

/-- Python "." .join over path segments. -/
def joinDots : List String → String
  | [] => ""
  | [p] => p
  | p :: ps => p ++ ("." ++ joinDots ps)

/-- Python str.split(".") over the characters: dots separate groups, and
a string with no dot is the single group holding it. -/
def splitDotsChars : List Char → List (List Char)
  | [] => [[]]
  | c :: cs =>
    if c = '.' then [] :: splitDotsChars cs
    else
      match splitDotsChars cs with
      | [] => [[c]]
      | g :: gs => (c :: g) :: gs

def splitDots (s : String) : List String :=
  (splitDotsChars s.data).map (fun cs => ⟨cs⟩)

/-- The prefix-shortening loop of ObjectSetting.transform: try to see the
join of the current parent segments as a module; on ImportError pop the
last segment onto the attribute list, failing once a single unimportable
segment remains; the empty join raises ValueError (import_module("")). -/
def moduleLoop (env : ImportEnv) : List String → List String → Except PyErr (PyObj × List String)
  | [], _ => .error (.valueError "Empty module name")
  | p :: ps, objects =>
    match env.modules.lookup (joinDots (p :: ps)) with
    | some m => .ok (m, objects)
    | Option.none =>
      if ps.isEmpty then .error (.importError ("No module named \x27" ++ p ++ "\x27"))
      else moduleLoop env ((p :: ps).dropLast) (((p :: ps).getLastD "") :: objects)
termination_by parents _ => parents.length
decreasing_by simp [List.length_dropLast]

/-- The getattr walk at the end of ObjectSetting.transform. -/
def attrWalk : PyObj → List String → Except PyErr PyObj
  | o, [] => .ok o
  | o, a :: rest =>
    match pyGetattr o a with
    | some o2 => attrWalk o2 rest
    | Option.none => .error (.attributeError ("object has no attribute \x27" ++ a ++ "\x27"))

/-- ObjectSetting.transform: None and the empty string resolve to None;
otherwise split the dotted path, run the prefix-shortening import loop
and walk the remaining attribute segments. -/
def objectTransform (env : ImportEnv) (path : Option String) : Except PyErr (Option PyObj) :=
  match path with
  | Option.none => .ok Option.none
  | some p =>
    if p = "" then .ok Option.none
    else
      let parts := splitDots p
      match moduleLoop env parts.dropLast [parts.getLastD ""] with
      | .error e => .error e
      | .ok (m, objects) => (attrWalk m objects).map some

/-- Rebuild a tree with its own data changed (the composites' __init__
mutates the name of unnamed children). -/
def SettingTree.mapData (f : SettingData → SettingData) : SettingTree → SettingTree
  | .leaf d => .leaf (f d)
  | .nestedDict d cs => .nestedDict (f d) cs
  | .nestedList d inner => .nestedList (f d) inner

/-- Name population performed by NestedDictSetting.__init__ (from the
subsettings key) and NestedListSetting.__init__ (from the outer name). -/
def populateChildName (n : String) (t : SettingTree) : SettingTree :=
  if t.data.name = "" then t.mapData (fun d => { d with name := n }) else t

/-- Setting(...): no default validators, identity transform, no custom
validate hook; decoding from environ is json.loads, taken as a parameter
(the json module is an external collaborator). -/
def baseSetting (name pfx : String) (required : Bool) (dflt : Dflt)
    (transformDefault : Bool) (validators : List Validator)
    (jsonLoads : String → Except PyErr PyVal) : SettingData :=
  { name := name, pfx := pfx, required := required, callDefault := true,
    transformDefault := transformDefault, dflt := dflt,
    validators := validators, validateHook := fun _ => [],
    transform := id, decodeEnviron := jsonLoads }

/-- BooleanSetting(...): default True, TypeValidator(bool) first, and the
boolean environ decoding table. -/
def booleanSetting (name pfx : String) (required : Bool) (dflt : Dflt)
    (transformDefault : Bool) (validators : List Validator) : SettingData :=
  { name := name, pfx := pfx, required := required, callDefault := true,
    transformDefault := transformDefault, dflt := dflt,
    validators := typeValidator isBool "bool" :: validators, validateHook := fun _ => [],
    transform := id, decodeEnviron := booleanDecodeEnviron (upperStr pfx ++ upperStr name) }

/-- IntegerSetting(...): default 0, TypeValidator(int) first, extra
validators next, then the optional Min/MaxValueValidator appended. -/
def integerSetting (name pfx : String) (required : Bool) (dflt : Dflt)
    (transformDefault : Bool) (validators : List Validator)
    (minimum maximum : Option Int) (jsonLoads : String → Except PyErr PyVal) : SettingData :=
  { name := name, pfx := pfx, required := required, callDefault := true,
    transformDefault := transformDefault, dflt := dflt,
    validators :=
      typeValidator isInt "int" :: validators
        ++ (match minimum with | some m => [minValueValidator m] | Option.none => [])
        ++ (match maximum with | some m => [maxValueValidator m] | Option.none => []),
    validateHook := fun _ => [], transform := id, decodeEnviron := jsonLoads }

/-- PositiveIntegerSetting(...): IntegerSetting with minimum forced to 0. -/
def positiveIntegerSetting (name pfx : String) (required : Bool) (dflt : Dflt)
    (transformDefault : Bool) (validators : List Validator)
    (maximum : Option Int) (jsonLoads : String → Except PyErr PyVal) : SettingData :=
  integerSetting name pfx required dflt transformDefault validators (some 0) maximum jsonLoads

/-- StringSetting(...): default "", TypeValidator(str) first. -/
def stringSetting (name pfx : String) (required : Bool) (dflt : Dflt)
    (transformDefault : Bool) (validators : List Validator)
    (jsonLoads : String → Except PyErr PyVal) : SettingData :=
  { name := name, pfx := pfx, required := required, callDefault := true,
    transformDefault := transformDefault, dflt := dflt,
    validators := typeValidator isStr "str" :: validators, validateHook := fun _ => [],
    transform := id, decodeEnviron := jsonLoads }

/-- NestedDictSetting(settings=children, ...): DictSetting data — default
is the dict callable, TypeValidator(dict) first — and children whose empty
names are populated from their subsettings key. -/
def nestedDictSetting (children : List (String × SettingTree)) (name pfx : String)
    (required : Bool) (dflt : Dflt) (transformDefault : Bool) (validators : List Validator)
    (dec : String → Except PyErr PyVal) : SettingTree :=
  .nestedDict
    { name := name, pfx := pfx, required := required, callDefault := true,
      transformDefault := transformDefault, dflt := dflt,
      validators := typeValidator isDict "dict" :: validators, validateHook := fun _ => [],
      transform := id, decodeEnviron := dec }
    (children.map (fun kc => (kc.1, populateChildName kc.1 kc.2)))

/-- NestedListSetting(inner_setting=inner, ...): IterableSetting data —
default None, no built-in validators — and an inner setting whose empty
name is populated from the outer name. -/
def nestedListSetting (inner : SettingTree) (name pfx : String)
    (required : Bool) (dflt : Dflt) (transformDefault : Bool) (validators : List Validator)
    (dec : String → Except PyErr PyVal) : SettingTree :=
  .nestedList
    { name := name, pfx := pfx, required := required, callDefault := true,
      transformDefault := transformDefault, dflt := dflt,
      validators := validators, validateHook := fun _ => [],
      transform := id, decodeEnviron := dec }
    (populateChildName name inner)

/-- A json.loads stand-in that always fails to decode; the claims below
never consult the deprecated environ channel with it. -/
def noJson : String → Except PyErr PyVal :=
  fun _ => .error (.valueError "Expecting value")

/-- Trees that contain no nested-dict composite on their spine (a plain
setting, or nested-list composites around one). -/
def dictFree : SettingTree → Bool
  | .leaf _ => true
  | .nestedDict _ _ => false
  | .nestedList _ inner => dictFree inner

/-- The value a non-required leaf child of a dict composite resolves to:
the transformed container entry when its full name is present, else its
own default (transformed iff transform_default). -/
def leafResolve (es : List (String × PyVal)) (d : SettingData) : PyVal :=
  match es.lookup (fullName d) with
  | some v => d.transform v
  | Option.none => if d.transformDefault then d.transform d.defaultValue else d.defaultValue

/-- The message of a check outcome when it is an ImproperlyConfigured
failure. -/
def improperMsgQ : Except PyErr Unit → Option String
  | .error (.improperlyConfigured m) => some m
  | _ => Option.none

/-- The ImproperlyConfigured messages of exactly the registered settings
whose check fails. -/
def groupFailMessages (E : Env) (regs : List (String × SettingTree)) : List String :=
  regs.filterMap (fun kt => improperMsgQ (checkTop E kt.2))

/-- Python callable() over the modelled values: only the opaque callable
object is callable. -/
def pyCallableQ : PyVal → Bool
  | .producerObj => true
  | _ => false

/-- CallablePathSetting(...): ObjectSetting's TypeValidator(str) as the
built-in validator, plus the validate override that disregards the raw
value and requires the transformed value (self.value, which for a found
top-level raw value is transform of that value) to be callable. The
transform is a parameter; at the None raw value of interest,
ObjectSetting.transform returns None, which the identity also does. -/
def callablePathSetting (name pfx : String) (required : Bool) (dflt : Dflt)
    (transformDefault : Bool) (validators : List Validator)
    (tr : PyVal → PyVal) (jsonLoads : String → Except PyErr PyVal) : SettingData :=
  { name := name, pfx := pfx, required := required, callDefault := true,
    transformDefault := transformDefault, dflt := dflt,
    validators := typeValidator isStr "str" :: validators,
    validateHook := fun v =>
      if pyCallableQ (tr v) then []
      else ["Value " ++ pyStr (tr v) ++ " is not a callable."],
    transform := tr, decodeEnviron := jsonLoads }

theorem rawTop_miss (E : Env) (t : SettingTree)
    (he : E.environ.lookup (fullName t.data) = Option.none)
    (hc : E.conf.lookup (fullName t.data) = Option.none) :
    rawTop E t = .error (.attributeError (attrErrMsg (fullName t.data))) := by
  simp [rawTop, he, hc]

theorem getValueAt_attrErr (pfn m : String) (t : SettingTree) :
    getValueAt pfn (.error (.attributeError m)) t
      = missResult (requiredMsg (fullName t.data) m) t := by
  cases t <;> simp [getValueAt]

theorem getValueAt_keyErr (pfn k : String) (t : SettingTree) :
    getValueAt pfn (.error (.keyError k)) t = missResult (missingItemMsg pfn k) t := by
  cases t <;> simp [getValueAt]

theorem getItems_eq_transformItems (inner : SettingTree)
    (h : ∀ pfn v, getValueAt pfn (.ok v) inner = treeTransform inner v) (pfn : String) :
    ∀ xs, getItems pfn inner xs = transformItems inner xs := by
  intro xs
  induction xs with
  | nil => simp [getItems, transformItems]
  | cons x rest ih =>
    simp only [getItems, transformItems, h]
    cases treeTransform inner x <;> simp [ih]

theorem getValueAt_ok_dictFree_aux :
    ∀ n t, sizeOf t ≤ n → dictFree t = true →
      ∀ pfn v, getValueAt pfn (.ok v) t = treeTransform t v := by
  intro n
  induction n with
  | zero =>
    intro t h
    exfalso
    cases t <;> simp_arith at h
  | succ n ih =>
    intro t hle hdf pfn v
    cases t with
    | leaf d => simp [getValueAt, treeTransform]
    | nestedDict d cs => simp [dictFree] at hdf
    | nestedList d inner =>
      have hinner : sizeOf inner ≤ n := by
        simp_arith at hle
        omega
      have hdf' : dictFree inner = true := by simpa [dictFree] using hdf
      have hrec := ih inner hinner hdf'
      cases v <;> simp [getValueAt, treeTransform, getItems_eq_transformItems inner hrec]

theorem getValueAt_ok_dictFree (t : SettingTree) (hdf : dictFree t = true)
    (pfn : String) (v : PyVal) : getValueAt pfn (.ok v) t = treeTransform t v :=
  getValueAt_ok_dictFree_aux (sizeOf t) t (Nat.le_refl _) hdf pfn v

/-- Concrete dict composite used to refute the success half of claim C1:
one child named a with default False. -/
def c1Tree : SettingTree :=
  nestedDictSetting
    [("a", .leaf (booleanSetting "" "" false (.value (.bool false)) false []))]
    "setting" "" false (.producer (fun _ => .dict [])) false [] noJson

def c1Env : Env := ⟨[], [("SETTING", PyVal.dict [])]⟩

/-- C1 (amended): for every descriptor, when both external sources miss
and required is false, get_value returns the default, transformed iff
transform_default; when the raw lookup succeeds, get_value returns
transform(raw) for every descriptor except the nested-dict composite
(which assembles its value from its children instead). -/
theorem C1_get_value_resolution :
    (∀ E t, t.data.required = false →
      E.environ.lookup (fullName t.data) = Option.none →
      E.conf.lookup (fullName t.data) = Option.none →
      getValueTop E t =
        (if t.data.transformDefault then treeTransform t t.data.defaultValue
         else .ok t.data.defaultValue))
    ∧ (∀ E t v, dictFree t = true → rawTop E t = .ok v →
        getValueTop E t = treeTransform t v) := by
  constructor
  · intro E t hreq he hc
    simp [getValueTop, rawTop_miss E t he hc, getValueAt_attrErr, missResult, hreq,
      defaultResult]
  · intro E t v hdf hraw
    simp [getValueTop, hraw, getValueAt_ok_dictFree t hdf]

/-- C1 counterexample: on a nested-dict composite whose raw lookup
succeeds (with the empty container), get_value is the children-assembled
mapping, not the transformed raw value, refuting the claim's unrestricted
success half. -/
theorem C1_counterexample :
    rawTop c1Env c1Tree = .ok (.dict [])
    ∧ treeTransform c1Tree (.dict []) = .ok (.dict [])
    ∧ getValueTop c1Env c1Tree = .ok (.dict [("a", PyVal.bool false)])
    ∧ getValueTop c1Env c1Tree ≠ treeTransform c1Tree (.dict []) := by
  refine ⟨?_, ?_, ?_, ?_⟩ <;>
    simp [c1Env, c1Tree, nestedDictSetting, booleanSetting, populateChildName,
      SettingTree.mapData, getValueTop, rawTop, getValueAt, getChildren, childRawFromDict,
      fullName, upperStr, SettingTree.data, List.lookup, missResult, defaultResult,
      SettingData.defaultValue, treeTransform, Except.map]

/-- C1 witness: both halves of the amended claim applied at concrete
inputs. -/
theorem C1_witness :
    getValueTop ⟨[], []⟩ (.leaf (booleanSetting "flag" "" false (.value (.bool true)) false []))
      = .ok (.bool true)
    ∧ getValueTop ⟨[], [("NUM", PyVal.int 3)]⟩
        (.leaf (integerSetting "num" "" false (.value (.int 0)) false [] Option.none Option.none noJson))
      = .ok (.int 3) := by
  constructor
  · have h := C1_get_value_resolution.1 ⟨[], []⟩
      (.leaf (booleanSetting "flag" "" false (.value (.bool true)) false [])) rfl rfl rfl
    simpa [SettingTree.data, booleanSetting, SettingData.defaultValue] using h
  · have h := C1_get_value_resolution.2 ⟨[], [("NUM", PyVal.int 3)]⟩
      (.leaf (integerSetting "num" "" false (.value (.int 0)) false [] Option.none Option.none noJson))
      (.int 3) rfl rfl
    simpa [treeTransform, integerSetting] using h

theorem checkTree_attrErr_required (pfn m : String) (t : SettingTree)
    (h : t.data.required = true) :
    checkTree pfn (.error (.attributeError m)) t
      = .error (.improperlyConfigured (requiredMsg (fullName t.data) m)) := by
  cases t <;> simp [checkTree, checkData, SettingTree.data] at h ⊢ <;> simp [h]

theorem checkTree_keyErr_required (pfn k : String) (t : SettingTree)
    (h : t.data.required = true) :
    checkTree pfn (.error (.keyError k)) t
      = .error (.improperlyConfigured (missingItemMsg pfn k)) := by
  cases t <;> simp [checkTree, checkData, SettingTree.data] at h ⊢ <;> simp [h]

/-- C2: a required setting missing from both sources makes get_value and
check fail with an ImproperlyConfigured whose message starts with the
setting's full name; when the miss is a required child absent from its
dict composite's container, both fail with the distinct missing-item
message, which starts with the parent's full name (and quotes the child's
full name). -/
theorem C2_required_missing :
    (∀ E t, t.data.required = true →
      E.environ.lookup (fullName t.data) = Option.none →
      E.conf.lookup (fullName t.data) = Option.none →
      ∃ rest,
        getValueTop E t = .error (.improperlyConfigured (fullName t.data ++ rest))
        ∧ checkTop E t = .error (.improperlyConfigured (fullName t.data ++ rest)))
    ∧ (∀ pfn es t, t.data.required = true →
        es.lookup (fullName t.data) = Option.none →
        getValueAt pfn (childRawFromDict (.dict es) (fullName t.data)) t
          = .error (.improperlyConfigured (missingItemMsg pfn (fullName t.data)))
        ∧ checkTree pfn (childRawFromDict (.dict es) (fullName t.data)) t
          = .error (.improperlyConfigured (missingItemMsg pfn (fullName t.data)))
        ∧ ∃ rest, missingItemMsg pfn (fullName t.data) = pfn ++ rest) := by
  constructor
  · intro E t h he hc
    refine ⟨" setting is required and " ++ attrErrMsg (fullName t.data), ?_, ?_⟩
    · rw [getValueTop, rawTop_miss E t he hc, getValueAt_attrErr]
      simp [missResult, h, requiredMsg, String.append_assoc]
    · rw [checkTop, rawTop_miss E t he hc, checkTree_attrErr_required _ _ _ h]
      simp [requiredMsg, String.append_assoc]
  · intro pfn es t h hl
    have hkey : childRawFromDict (.dict es) (fullName t.data)
        = .error (.keyError (fullName t.data)) := by
      simp [childRawFromDict, hl]
    refine ⟨?_, ?_, ?_⟩
    · rw [hkey, getValueAt_keyErr]
      simp [missResult, h]
    · rw [hkey, checkTree_keyErr_required _ _ _ h]
    · exact ⟨" setting is missing required item \x27" ++ (fullName t.data ++ "\x27"),
        by simp [missingItemMsg, String.append_assoc]⟩

/-- C2 witness: a required top-level setting named alpha with a custom
prefix, and a required child absent from an empty parent container. -/
theorem C2_witness :
    (∃ rest,
      getValueTop ⟨[], []⟩ (.leaf (baseSetting "alpha" "pre_" true (.value .none) false [] noJson))
        = .error (.improperlyConfigured ("PRE_ALPHA" ++ rest))
      ∧ checkTop ⟨[], []⟩ (.leaf (baseSetting "alpha" "pre_" true (.value .none) false [] noJson))
        = .error (.improperlyConfigured ("PRE_ALPHA" ++ rest)))
    ∧ getValueAt "PARENT" (childRawFromDict (.dict []) "CHILD")
        (.leaf (baseSetting "child" "" true (.value .none) false [] noJson))
      = .error (.improperlyConfigured (missingItemMsg "PARENT" "CHILD")) := by
  constructor
  · exact C2_required_missing.1 ⟨[], []⟩
      (.leaf (baseSetting "alpha" "pre_" true (.value .none) false [] noJson)) rfl rfl rfl
  · exact (C2_required_missing.2 "PARENT" []
      (.leaf (baseSetting "child" "" true (.value .none) false [] noJson)) rfl rfl).1

theorem runValidators_eq_flatMap (vs : List Validator) (v : PyVal) :
    runValidators vs v = vs.flatMap (fun f => f v) := by
  induction vs with
  | nil => simp [runValidators]
  | cons f fs ih => simp [runValidators, ih]

/-- C4 (amended): on a found raw value, when the custom validate hook
passes (the default hook always does), check runs the whole validator
list in declaration order, never short-circuits, and raises exactly one
combined error whose embedded messages are the concatenation of the
failing validators' messages — passing validators contribute nothing;
when the custom validate hook fails, run_validators is skipped and the
combined error carries only the hook's messages. -/
theorem C4_validator_aggregation :
    (∀ E d v, rawTop E (.leaf d) = .ok v → d.validateHook v = [] →
      (checkTop E (.leaf d) = .ok () ↔ runValidators d.validators v = [])
      ∧ (runValidators d.validators v ≠ [] →
          checkTop E (.leaf d)
            = .error (.improperlyConfigured
                (invalidValueMsg (fullName d) (runValidators d.validators v))))
      ∧ runValidators d.validators v = d.validators.flatMap (fun f => f v)
      ∧ (∀ m, m ∈ runValidators d.validators v ↔ ∃ f ∈ d.validators, m ∈ f v))
    ∧ (∀ E d v, rawTop E (.leaf d) = .ok v → d.validateHook v ≠ [] →
        checkTop E (.leaf d)
          = .error (.improperlyConfigured
              (invalidValueMsg (fullName d) (d.validateHook v)))) := by
  constructor
  · intro E d v hraw hhook
    have hchk : checkTop E (.leaf d) = checkData "" (.ok v) d := by
      rw [checkTop, hraw]
      simp [checkTree]
    have hdata : checkData "" (.ok v) d =
        (if (runValidators d.validators v).isEmpty then .ok ()
         else .error (.improperlyConfigured (invalidValueMsg (fullName d) (runValidators d.validators v)))) := by
      simp [checkData, hhook]
    refine ⟨?_, ?_, runValidators_eq_flatMap d.validators v, ?_⟩
    · rw [hchk, hdata]
      rcases h : runValidators d.validators v with _ | ⟨m, ms⟩ <;> simp
    · intro hne
      rw [hchk, hdata]
      simp [List.isEmpty_iff, hne]
    · intro m
      rw [runValidators_eq_flatMap]
      simp [List.mem_flatMap]
  · intro E d v hraw hne
    have hchk : checkTop E (.leaf d) = checkData "" (.ok v) d := by
      rw [checkTop, hraw]
      simp [checkTree]
    have h1 : (d.validateHook v).isEmpty = false := by
      simpa [List.isEmpty_iff] using hne
    rw [hchk]
    simp [checkData, h1, List.isEmpty_iff, hne]

/-- C4 counterexample: CallablePathSetting with CALLABLE_PATH = None —
its validate hook fails on the non-callable transformed value, so
run_validators is skipped: the one combined error carries only the
hook's message, while the built-in TypeValidator(str) also fails on
None and its message is omitted, refuting the claim's universal
"contains the message of every failing validator". -/
theorem C4_counterexample :
    runValidators
        (callablePathSetting "callable_path" "" false (.value .none) false [] id noJson).validators
        PyVal.none
      = ["Value None is not of type str."]
    ∧ (callablePathSetting "callable_path" "" false (.value .none) false [] id noJson).validateHook
        PyVal.none
      = ["Value None is not a callable."]
    ∧ checkTop ⟨[], [("CALLABLE_PATH", PyVal.none)]⟩
        (.leaf (callablePathSetting "callable_path" "" false (.value .none) false [] id noJson))
      = .error (.improperlyConfigured
          (invalidValueMsg "CALLABLE_PATH" ["Value None is not a callable."]))
    ∧ "Value None is not of type str." ∉ (["Value None is not a callable."] : List String)
    ∧ checkTop ⟨[], [("CALLABLE_PATH", PyVal.none)]⟩
        (.leaf (callablePathSetting "callable_path" "" false (.value .none) false [] id noJson))
      ≠ .error (.improperlyConfigured
          (invalidValueMsg "CALLABLE_PATH" ["Value None is not of type str."])) := by
  have h3 : checkTop ⟨[], [("CALLABLE_PATH", PyVal.none)]⟩
      (.leaf (callablePathSetting "callable_path" "" false (.value .none) false [] id noJson))
      = .error (.improperlyConfigured
          (invalidValueMsg "CALLABLE_PATH" ["Value None is not a callable."])) := by
    simp [checkTop, rawTop, checkTree, checkData, callablePathSetting, fullName, upperStr,
      SettingTree.data, List.lookup, pyCallableQ, pyStr, invalidValueMsg]
  refine ⟨?_, ?_, h3, by decide, ?_⟩
  · simp [callablePathSetting, runValidators, typeValidator, isStr, pyStr]
  · simp [callablePathSetting, pyCallableQ, pyStr]
  · rw [h3]
    intro hcon
    injection hcon with h
    injection h with h2
    exact absurd h2 (by decide)

/-- C4 witness: one failing and one passing validator on a plain setting
whose raw value is found (the combined error holds exactly the failing
validator's message), and a setting with a failing validate hook (the
combined error holds only the hook's message). -/
theorem C4_witness :
    checkTop ⟨[], [("S", PyVal.int 5)]⟩
        (.leaf (baseSetting "s" "" false (.value .none) false
          [fun _ => ["bad"], fun _ => []] noJson))
      = .error (.improperlyConfigured (invalidValueMsg "S" ["bad"]))
    ∧ checkTop ⟨[], [("CP", PyVal.none)]⟩
        (.leaf (callablePathSetting "cp" "" false (.value .none) false [] id noJson))
      = .error (.improperlyConfigured
          (invalidValueMsg "CP" ["Value None is not a callable."])) := by
  constructor
  · have h := (C4_validator_aggregation.1 ⟨[], [("S", PyVal.int 5)]⟩
        (baseSetting "s" "" false (.value .none) false [fun _ => ["bad"], fun _ => []] noJson)
        (.int 5) rfl rfl).2.1 (by simp [runValidators, baseSetting])
    simpa [runValidators, baseSetting, fullName, upperStr] using h
  · have h := C4_validator_aggregation.2 ⟨[], [("CP", PyVal.none)]⟩
      (callablePathSetting "cp" "" false (.value .none) false [] id noJson)
      PyVal.none rfl (by simp [callablePathSetting, pyCallableQ, pyStr])
    simpa [callablePathSetting, pyCallableQ, pyStr, fullName, upperStr] using h

/-- Failing input for claim C3: a dict composite with two integer
children, both given non-integer values in the container. -/
def c3Tree : SettingTree :=
  nestedDictSetting
    [("a", .leaf (integerSetting "" "" false (.value (.int 0)) false [] Option.none Option.none noJson)),
     ("b", .leaf (integerSetting "" "" false (.value (.int 0)) false [] Option.none Option.none noJson))]
    "setting" "" false (.producer (fun _ => .dict [])) false [] noJson

def c3Env : Env := ⟨[], [("SETTING", .dict [("A", .str "x"), ("B", .str "y")])]⟩

/-- C3 evaluated at the failing input: each child fails its own check in
isolation, yet the composite's check propagates only the first child's
ImproperlyConfigured — the `except ValidationError` guard never matches
it, so the second child is never reached and no combined aggregate is
raised. -/
theorem C3_code_behavior :
    checkTree "SETTING" (childRawFromDict (.dict [("A", .str "x"), ("B", .str "y")]) "A")
        (.leaf (integerSetting "a" "" false (.value (.int 0)) false [] Option.none Option.none noJson))
      = .error (.improperlyConfigured (invalidValueMsg "A" ["Value x is not of type int."]))
    ∧ checkTree "SETTING" (childRawFromDict (.dict [("A", .str "x"), ("B", .str "y")]) "B")
        (.leaf (integerSetting "b" "" false (.value (.int 0)) false [] Option.none Option.none noJson))
      = .error (.improperlyConfigured (invalidValueMsg "B" ["Value y is not of type int."]))
    ∧ checkTop c3Env c3Tree
      = .error (.improperlyConfigured (invalidValueMsg "A" ["Value x is not of type int."]))
    ∧ (∀ msgs, checkTop c3Env c3Tree ≠ .error (.validationError msgs)) := by
  refine ⟨?_, ?_, ?_, ?_⟩ <;>
    simp [c3Env, c3Tree, nestedDictSetting, integerSetting, populateChildName,
      SettingTree.mapData, checkTop, rawTop, checkTree, checkData, checkChildren,
      childRawFromDict, fullName, upperStr, SettingTree.data, List.lookup,
      runValidators, typeValidator, isInt, isDict, pyStr, invalidValueMsg, Except.map]

theorem groupCollect_eq (E : Env) :
    ∀ regs, (∀ kt ∈ regs, checkTop E kt.2 = .ok ()
        ∨ ∃ m, checkTop E kt.2 = .error (.improperlyConfigured m)) →
      groupCollect E regs = .ok (groupFailMessages E regs) := by
  intro regs
  induction regs with
  | nil => intro _; simp [groupCollect, groupFailMessages]
  | cons kt rest ih =>
    intro h
    have hh := h kt (by simp)
    have ht := ih (fun x hx => h x (by simp [hx]))
    rcases hh with hok | ⟨m, hm⟩
    · simp only [groupCollect, hok]
      rw [ht]
      simp [groupFailMessages, List.filterMap_cons, hok, improperMsgQ]
    · simp only [groupCollect, hm]
      rw [ht]
      simp [groupFailMessages, List.filterMap_cons, hm, improperMsgQ, Except.map]

/-- C5: the group-wide check runs every registered setting's check; when
none fail it returns normally, otherwise it raises exactly one combined
ImproperlyConfigured joining the failing settings' messages — and a
message appears in the collection exactly when its setting's check failed
(every failure is collected, never stopping at the first; passing
settings contribute nothing). Settings whose check fails with something
other than ImproperlyConfigured would propagate, hence the hypothesis. -/
theorem C5_group_check :
    ∀ E regs,
      (∀ kt ∈ regs, checkTop E kt.2 = .ok ()
        ∨ ∃ m, checkTop E kt.2 = .error (.improperlyConfigured m)) →
      (groupFailMessages E regs = [] → groupCheck E regs = .ok ())
      ∧ (groupFailMessages E regs ≠ [] →
          groupCheck E regs
            = .error (.improperlyConfigured (String.intercalate "\n" (groupFailMessages E regs))))
      ∧ (∀ m, m ∈ groupFailMessages E regs ↔
          ∃ kt ∈ regs, checkTop E kt.2 = .error (.improperlyConfigured m)) := by
  intro E regs h
  have hcol := groupCollect_eq E regs h
  refine ⟨?_, ?_, ?_⟩
  · intro h0
    simp [groupCheck, hcol, h0]
  · intro hne
    rcases hmsgs : groupFailMessages E regs with _ | ⟨m, ms⟩
    · exact absurd hmsgs hne
    · simp [groupCheck, hcol, hmsgs]
  · intro m
    have himp : ∀ r, improperMsgQ r = some m ↔ r = .error (.improperlyConfigured m) := by
      intro r
      cases r with
      | ok u => simp [improperMsgQ]
      | error e => cases e <;> simp [improperMsgQ]
    simp only [groupFailMessages, List.mem_filterMap, himp]

/-- C5 witness: a group with one required-and-missing setting and one
satisfied setting raises one combined error holding exactly the missing
setting's message; the group with only the satisfied setting returns
normally. -/
theorem C5_witness :
    groupCheck ⟨[], [("TWO", PyVal.int 1)]⟩
        [("one", .leaf (baseSetting "one" "" true (.value .none) false [] noJson)),
         ("two", .leaf (baseSetting "two" "" false (.value .none) false [] noJson))]
      = .error (.improperlyConfigured
          (String.intercalate "\n" [requiredMsg "ONE" (attrErrMsg "ONE")]))
    ∧ groupCheck ⟨[], [("TWO", PyVal.int 1)]⟩
        [("two", .leaf (baseSetting "two" "" false (.value .none) false [] noJson))]
      = .ok () := by
  have h1 : checkTop ⟨[], [("TWO", PyVal.int 1)]⟩
      (.leaf (baseSetting "one" "" true (.value .none) false [] noJson))
      = .error (.improperlyConfigured (requiredMsg "ONE" (attrErrMsg "ONE"))) := by
    simp [checkTop, rawTop, checkTree, checkData, baseSetting, fullName, upperStr,
      SettingTree.data, List.lookup]
  have h2 : checkTop ⟨[], [("TWO", PyVal.int 1)]⟩
      (.leaf (baseSetting "two" "" false (.value .none) false [] noJson))
      = .ok () := by
    simp [checkTop, rawTop, checkTree, checkData, baseSetting, fullName, upperStr,
      SettingTree.data, List.lookup, runValidators]
  constructor
  · have h := (C5_group_check ⟨[], [("TWO", PyVal.int 1)]⟩
        [("one", .leaf (baseSetting "one" "" true (.value .none) false [] noJson)),
         ("two", .leaf (baseSetting "two" "" false (.value .none) false [] noJson))]
        (by
          intro kt hkt
          simp only [List.mem_cons, List.mem_singleton] at hkt
          rcases hkt with rfl | rfl | h
          · exact Or.inr ⟨_, h1⟩
          · exact Or.inl h2
          · simp at h)).2.1
    have hmsgs : groupFailMessages ⟨[], [("TWO", PyVal.int 1)]⟩
        [("one", .leaf (baseSetting "one" "" true (.value .none) false [] noJson)),
         ("two", .leaf (baseSetting "two" "" false (.value .none) false [] noJson))]
        = [requiredMsg "ONE" (attrErrMsg "ONE")] := by
      simp [groupFailMessages, List.filterMap_cons, h1, h2, improperMsgQ]
    rw [hmsgs] at h
    exact h (by simp)
  · have h := (C5_group_check ⟨[], [("TWO", PyVal.int 1)]⟩
        [("two", .leaf (baseSetting "two" "" false (.value .none) false [] noJson))]
        (by
          intro kt hkt
          simp only [List.mem_singleton] at hkt
          subst hkt
          exact Or.inl h2)).1
    exact h (by simp [groupFailMessages, List.filterMap_cons, h2, improperMsgQ])

theorem getChildren_leaves (pfn : String) (es : List (String × PyVal)) :
    ∀ cs, (∀ kc ∈ cs, (∃ dd, kc.2 = SettingTree.leaf dd) ∧ kc.2.data.required = false) →
      getChildren pfn (.dict es) cs
        = .ok (cs.map (fun kc => (kc.1, leafResolve es kc.2.data))) := by
  intro cs
  induction cs with
  | nil => intro _; simp [getChildren]
  | cons kc rest ih =>
    intro h
    obtain ⟨⟨dd, hdd⟩, hreq⟩ := h kc (by simp)
    have ht := ih (fun x hx => h x (by simp [hx]))
    obtain ⟨key, c⟩ := kc
    simp only at hdd hreq
    subst hdd
    simp only [SettingTree.data] at hreq
    rcases hl : es.lookup (fullName dd) with _ | v
    · cases htd : dd.transformDefault <;>
        simp [getChildren, childRawFromDict, hl, getValueAt, missResult, hreq,
          defaultResult, htd, leafResolve, ht, treeTransform, SettingTree.data, Except.map]
    · simp [getChildren, childRawFromDict, hl, getValueAt, leafResolve, ht,
        SettingTree.data, Except.map]

/-- Concrete composite of claim C6: child a with default False, child b
declared under key b but named B with default True. -/
def c6Tree : SettingTree :=
  nestedDictSetting
    [("a", .leaf (booleanSetting "" "" false (.value (.bool false)) false [])),
     ("b", .leaf (booleanSetting "B" "" false (.value (.bool true)) false []))]
    "setting" "" false (.producer (fun _ => .dict [])) false [] noJson

/-- C6: a non-required dict composite with the empty-dict producer default
returns {} when its own lookup misses, whatever its children; when the
lookup succeeds, every leaf child is resolved through the container —
present entries are taken (transformed), absent children fall back to
their own defaults, and the result is keyed by the declaration key; on
the claim's concrete instance, container {B: False} yields
{a: False, b: False} and a miss yields {}. -/
theorem C6_nested_dict_get_value :
    (∀ E D cs, D.required = false → D.transformDefault = false →
      D.callDefault = true → D.dflt = .producer (fun _ => .dict []) →
      E.environ.lookup (fullName D) = Option.none →
      E.conf.lookup (fullName D) = Option.none →
      getValueTop E (.nestedDict D cs) = .ok (.dict []))
    ∧ (∀ pfn es D cs,
        (∀ kc ∈ cs, (∃ dd, kc.2 = SettingTree.leaf dd) ∧ kc.2.data.required = false) →
        getValueAt pfn (.ok (.dict es)) (.nestedDict D cs)
          = .ok (.dict (cs.map (fun kc => (kc.1, leafResolve es kc.2.data)))))
    ∧ getValueTop ⟨[], [("SETTING", .dict [("B", .bool false)])]⟩ c6Tree
        = .ok (.dict [("a", .bool false), ("b", .bool false)])
    ∧ getValueTop ⟨[], []⟩ c6Tree = .ok (.dict []) := by
  refine ⟨?_, ?_, ?_, ?_⟩
  · intro E D cs hreq htd hcd hdflt he hc
    have hm := rawTop_miss E (.nestedDict D cs) (by simpa [SettingTree.data] using he)
      (by simpa [SettingTree.data] using hc)
    rw [getValueTop, hm, getValueAt_attrErr]
    simp [missResult, SettingTree.data, hreq, htd, defaultResult, SettingData.defaultValue,
      hdflt, hcd]
  · intro pfn es D cs h
    simp only [getValueAt]
    rw [getChildren_leaves (fullName D) es cs h]
    simp [Except.map]
  · simp [c6Tree, nestedDictSetting, booleanSetting, populateChildName, SettingTree.mapData,
      getValueTop, rawTop, getValueAt, getChildren, childRawFromDict, fullName, upperStr,
      SettingTree.data, List.lookup, missResult, defaultResult, SettingData.defaultValue,
      Except.map]
  · simp [c6Tree, nestedDictSetting, booleanSetting, populateChildName, SettingTree.mapData,
      getValueTop, rawTop, getValueAt, getChildren, childRawFromDict, fullName, upperStr,
      SettingTree.data, List.lookup, missResult, defaultResult, SettingData.defaultValue,
      Except.map]

/-- C6 witness: the general halves applied at concrete inputs — a dict
composite with an arbitrary child given no external value returns {}, and
a one-leaf-child composite over the empty container falls back to the
child's default. -/
theorem C6_witness :
    getValueTop ⟨[], []⟩
        (.nestedDict
          (baseSetting "outer" "" false (.producer (fun _ => .dict [])) false [] noJson)
          [("x", .leaf (baseSetting "x" "" false (.value (.int 7)) false [] noJson))])
      = .ok (.dict [])
    ∧ getValueAt "" (.ok (.dict []))
        (.nestedDict
          (baseSetting "outer" "" false (.producer (fun _ => .dict [])) false [] noJson)
          [("x", .leaf (baseSetting "x" "" false (.value (.int 7)) false [] noJson))])
      = .ok (.dict [("x", .int 7)]) := by
  constructor
  · exact C6_nested_dict_get_value.1 ⟨[], []⟩
      (baseSetting "outer" "" false (.producer (fun _ => .dict [])) false [] noJson)
      [("x", .leaf (baseSetting "x" "" false (.value (.int 7)) false [] noJson))]
      rfl rfl rfl rfl rfl rfl
  · have h := C6_nested_dict_get_value.2.1 "" []
      (baseSetting "outer" "" false (.producer (fun _ => .dict [])) false [] noJson)
      [("x", .leaf (baseSetting "x" "" false (.value (.int 7)) false [] noJson))]
      (by
        intro kc hkc
        simp only [List.mem_singleton] at hkc
        subst hkc
        exact ⟨⟨_, rfl⟩, rfl⟩)
    simpa [leafResolve, baseSetting, fullName, upperStr, SettingTree.data, List.lookup,
      SettingData.defaultValue] using h

/-- C7: a second attribute read returns the identical value the first
read cached, leaving the cache untouched (no re-resolution); invalidation
empties the whole per-instance cache, and the next read after it
re-resolves through get_value alone. -/
theorem C7_cache_idempotence :
    ∀ E regs st item,
      (∀ v st', getattrStep E regs st item = .ok (v, st') →
        getattrStep E regs st' item = .ok (v, st'))
      ∧ (invalidateCache st).cache = []
      ∧ (∀ t, regs.lookup item = some t →
          getattrStep E regs (invalidateCache st) item =
            match getValueTop E t with
            | .ok w => .ok (w, ⟨[(item, w)]⟩)
            | .error e => .error e) := by
  intro E regs st item
  refine ⟨?_, rfl, ?_⟩
  · intro v st' h
    revert h
    rcases hr : regs.lookup item with _ | t
    · intro h; simp [getattrStep, hr] at h
    · rcases hc : st.cache.lookup item with _ | w
      · rcases hv : getValueTop E t with e | w
        · intro h; simp [getattrStep, hr, hc, hv] at h
        · intro h
          simp only [getattrStep, hr, hc, hv] at h
          obtain ⟨rfl, rfl⟩ := by simpa using h
          simp [getattrStep, hr, List.lookup]
      · intro h
        simp only [getattrStep, hr, hc] at h
        obtain ⟨rfl, rfl⟩ := by simpa using h
        simp [getattrStep, hr, hc]
  · intro t ht
    rcases hv : getValueTop E t with e | w <;>
      simp [getattrStep, ht, invalidateCache, List.lookup, hv]

/-- C7 witness: a one-setting group; the cached read repeats the first
read's result unchanged, and after invalidation the read re-resolves. -/
theorem C7_witness :
    getattrStep ⟨[], [("N", PyVal.int 1)]⟩
        [("n", .leaf (baseSetting "n" "" false (.value .none) false [] noJson))]
        ⟨[("n", PyVal.int 1)]⟩ "n"
      = .ok (PyVal.int 1, ⟨[("n", PyVal.int 1)]⟩)
    ∧ getattrStep ⟨[], [("N", PyVal.int 1)]⟩
        [("n", .leaf (baseSetting "n" "" false (.value .none) false [] noJson))]
        (invalidateCache ⟨[("n", PyVal.int 1)]⟩) "n"
      = .ok (PyVal.int 1, ⟨[("n", PyVal.int 1)]⟩) := by
  have hval : getValueTop ⟨[], [("N", PyVal.int 1)]⟩
      (.leaf (baseSetting "n" "" false (.value .none) false [] noJson)) = .ok (PyVal.int 1) := by
    simp [getValueTop, rawTop, getValueAt, baseSetting, fullName, upperStr, SettingTree.data,
      List.lookup]
  have hfirst : getattrStep ⟨[], [("N", PyVal.int 1)]⟩
      [("n", .leaf (baseSetting "n" "" false (.value .none) false [] noJson))] ⟨[]⟩ "n"
      = .ok (PyVal.int 1, ⟨[("n", PyVal.int 1)]⟩) := by
    simp [getattrStep, List.lookup, hval]
  constructor
  · exact (C7_cache_idempotence ⟨[], [("N", PyVal.int 1)]⟩
      [("n", .leaf (baseSetting "n" "" false (.value .none) false [] noJson))] ⟨[]⟩ "n").1
      (PyVal.int 1) ⟨[("n", PyVal.int 1)]⟩ hfirst
  · have h := (C7_cache_idempotence ⟨[], [("N", PyVal.int 1)]⟩
      [("n", .leaf (baseSetting "n" "" false (.value .none) false [] noJson))]
      ⟨[("n", PyVal.int 1)]⟩ "n").2.2
      (.leaf (baseSetting "n" "" false (.value .none) false [] noJson)) rfl
    rw [h, hval]

/-- C8: the boolean environ decode maps any string whose lowercasing is
true/yes/1 to True and false/no/0 to False, and fails on every other
string with a ValueError whose message names the setting's full name. -/
theorem C8_boolean_decode :
    ∀ fn s,
      (lowerStr s ∈ ["true", "yes", "1"] → booleanDecodeEnviron fn s = .ok (.bool true))
      ∧ (lowerStr s ∈ ["false", "no", "0"] → booleanDecodeEnviron fn s = .ok (.bool false))
      ∧ (lowerStr s ∉ ["true", "yes", "1"] → lowerStr s ∉ ["false", "no", "0"] →
          ∃ rest, booleanDecodeEnviron fn s
            = .error (.valueError ("Invalid boolean setting " ++ fn ++ rest))) := by
  intro fn s
  refine ⟨?_, ?_, ?_⟩
  · intro h
    simp [booleanDecodeEnviron, h]
  · intro h
    have h' : lowerStr s ∉ ["true", "yes", "1"] := by
      simp only [List.mem_cons, List.not_mem_nil, or_false] at h ⊢
      rcases h with h | h | h <;> simp [h]
    simp [booleanDecodeEnviron, h, h']
  · intro h1 h2
    exact ⟨" in environ (" ++ (s ++ ")"),
      by simp [booleanDecodeEnviron, h1, h2, String.append_assoc]⟩

/-- C8 witness: the claim's concrete strings, case included, and one
undecodable string. -/
theorem C8_witness :
    booleanDecodeEnviron "FLAG" "TRUE" = .ok (.bool true)
    ∧ booleanDecodeEnviron "FLAG" "yes" = .ok (.bool true)
    ∧ booleanDecodeEnviron "FLAG" "1" = .ok (.bool true)
    ∧ booleanDecodeEnviron "FLAG" "FALSE" = .ok (.bool false)
    ∧ booleanDecodeEnviron "FLAG" "no" = .ok (.bool false)
    ∧ booleanDecodeEnviron "FLAG" "0" = .ok (.bool false)
    ∧ ∃ rest, booleanDecodeEnviron "FLAG" "maybe"
        = .error (.valueError ("Invalid boolean setting " ++ "FLAG" ++ rest)) :=
  ⟨(C8_boolean_decode "FLAG" "TRUE").1 (by decide),
   (C8_boolean_decode "FLAG" "yes").1 (by decide),
   (C8_boolean_decode "FLAG" "1").1 (by decide),
   (C8_boolean_decode "FLAG" "FALSE").2.1 (by decide),
   (C8_boolean_decode "FLAG" "no").2.1 (by decide),
   (C8_boolean_decode "FLAG" "0").2.1 (by decide),
   (C8_boolean_decode "FLAG" "maybe").2.2 (by decide) (by decide)⟩

/-- C10: Python's bool being a subclass of int, a boolean raw value
passes the built-in integer TypeValidator, and check on an Integer or
PositiveInteger setting with a boolean raw value reports no error at all. -/
theorem C10_bool_passes_integer_check :
    (∀ b, isInt (.bool b) = true)
    ∧ (∀ b, typeValidator isInt "int" (.bool b) = [])
    ∧ (∀ pfn name pfx dflt td b,
        checkData pfn (.ok (.bool b))
          (integerSetting name pfx false dflt td [] Option.none Option.none noJson) = .ok ())
    ∧ (∀ pfn name pfx dflt td b,
        checkData pfn (.ok (.bool b))
          (positiveIntegerSetting name pfx false dflt td [] Option.none noJson) = .ok ()) := by
  refine ⟨?_, ?_, ?_, ?_⟩
  · intro b; rfl
  · intro b; simp [typeValidator, isInt]
  · intro pfn name pfx dflt td b
    simp [checkData, integerSetting, runValidators, typeValidator, isInt]
  · intro pfn name pfx dflt td b
    cases b <;>
      simp [checkData, positiveIntegerSetting, integerSetting, runValidators,
        typeValidator, isInt, minValueValidator, pyNumQ]

theorem dropLast_take_eq {α : Type} (l : List α) (j : Nat) (hj : j ≤ l.length - 1) :
    l.dropLast.take j = l.take j := by
  rw [List.dropLast_eq_take, List.take_take]
  congr 1
  omega

theorem moduleLoop_fail (env : ImportEnv) :
    ∀ n parents objects, parents.length ≤ n → parents ≠ [] →
      (∀ j, 1 ≤ j → j ≤ parents.length →
        env.modules.lookup (joinDots (parents.take j)) = Option.none) →
      moduleLoop env parents objects
        = .error (.importError ("No module named \x27" ++ parents.headD "" ++ "\x27")) := by
  intro n
  induction n with
  | zero =>
    intro parents objects hlen hne _
    cases parents with
    | nil => exact absurd rfl hne
    | cons p ps => simp at hlen
  | succ n ih =>
    intro parents objects hlen hne hall
    cases parents with
    | nil => exact absurd rfl hne
    | cons p ps =>
      have hfull : env.modules.lookup (joinDots (p :: ps)) = Option.none := by
        have h := hall (p :: ps).length (by simp) (Nat.le_refl _)
        rwa [List.take_length] at h
      cases ps with
      | nil => simp [moduleLoop, hfull]
      | cons q qs =>
        have hlen' : (p :: q :: qs).dropLast.length ≤ n := by
          simp only [List.length_dropLast, List.length_cons] at hlen ⊢
          omega
        have hne' : (p :: q :: qs).dropLast ≠ [] := by
          simp [List.dropLast]
        have hall' : ∀ j, 1 ≤ j → j ≤ (p :: q :: qs).dropLast.length →
            env.modules.lookup (joinDots ((p :: q :: qs).dropLast.take j)) = Option.none := by
          intro j hj1 hj2
          simp only [List.length_dropLast, List.length_cons] at hj2
          rw [dropLast_take_eq _ j (by simp; omega)]
          exact hall j hj1 (by simp; omega)
        rw [show moduleLoop env (p :: q :: qs) objects
            = moduleLoop env ((p :: q :: qs).dropLast) (((p :: q :: qs).getLastD "") :: objects) by
          simp [moduleLoop, hfull]]
        rw [ih _ _ hlen' hne' hall']
        simp [List.dropLast]

theorem moduleLoop_success (env : ImportEnv) :
    ∀ n parents objects k m, parents.length ≤ n →
      1 ≤ k → k ≤ parents.length →
      env.modules.lookup (joinDots (parents.take k)) = some m →
      (∀ j, k < j → j ≤ parents.length →
        env.modules.lookup (joinDots (parents.take j)) = Option.none) →
      moduleLoop env parents objects = .ok (m, parents.drop k ++ objects) := by
  intro n
  induction n with
  | zero =>
    intro parents objects k m hlen hk1 hk2 _ _
    cases parents with
    | nil => simp at hk2; omega
    | cons p ps => simp at hlen
  | succ n ih =>
    intro parents objects k m hlen hk1 hk2 hsome hfail
    cases parents with
    | nil => simp at hk2; omega
    | cons p ps =>
      by_cases hk : k = (p :: ps).length
      · have htk : (p :: ps).take k = p :: ps := by rw [hk, List.take_length]
        rw [htk] at hsome
        rw [show moduleLoop env (p :: ps) objects = .ok (m, objects) by
          simp [moduleLoop, hsome]]
        rw [show (p :: ps).drop k = [] from by rw [hk]; simp]
        simp
      · have hklt : k < (p :: ps).length := lt_of_le_of_ne hk2 hk
        have hfull : env.modules.lookup (joinDots (p :: ps)) = Option.none := by
          have h := hfail (p :: ps).length hklt (Nat.le_refl _)
          rwa [List.take_length] at h
        cases ps with
        | nil => simp at hklt; omega
        | cons q qs =>
          have hne : (p :: q :: qs) ≠ [] := by simp
          have hsplit := List.dropLast_concat_getLast (l := p :: q :: qs) hne
          have hg : (p :: q :: qs).getLastD "" = (p :: q :: qs).getLast hne := by
            simp [List.getLastD_eq_getLast?, List.getLast?_eq_getLast (p :: q :: qs) hne]
          have hlen' : (p :: q :: qs).dropLast.length ≤ n := by
            simp only [List.length_dropLast, List.length_cons] at hlen ⊢
            omega
          have hkd : k ≤ (p :: q :: qs).dropLast.length := by
            simp only [List.length_dropLast, List.length_cons] at hklt ⊢
            omega
          have htake : ∀ j, j ≤ (p :: q :: qs).dropLast.length →
              (p :: q :: qs).dropLast.take j = (p :: q :: qs).take j := by
            intro j hj
            apply dropLast_take_eq
            simp only [List.length_dropLast, List.length_cons] at hj ⊢
            omega
          have hsome' : env.modules.lookup
              (joinDots ((p :: q :: qs).dropLast.take k)) = some m := by
            rw [htake k hkd]; exact hsome
          have hfail' : ∀ j, k < j → j ≤ (p :: q :: qs).dropLast.length →
              env.modules.lookup (joinDots ((p :: q :: qs).dropLast.take j)) = Option.none := by
            intro j hj1 hj2
            rw [htake j hj2]
            refine hfail j hj1 ?_
            simp only [List.length_dropLast, List.length_cons] at hj2 ⊢
            omega
          rw [show moduleLoop env (p :: q :: qs) objects
              = moduleLoop env ((p :: q :: qs).dropLast)
                  (((p :: q :: qs).getLastD "") :: objects) by
            simp [moduleLoop, hfull]]
          rw [ih _ _ k m hlen' hk1 hkd hsome' hfail']
          have hdrop : (p :: q :: qs).drop k
              = (p :: q :: qs).dropLast.drop k ++ [(p :: q :: qs).getLastD ""] := by
            conv_lhs => rw [← hsplit]
            rw [List.drop_append_of_le_length hkd, hg]
          rw [hdrop, List.append_assoc]
          simp

theorem dropLast_headD {α : Type} (l : List α) (h : 2 ≤ l.length) (d : α) :
    l.dropLast.headD d = l.headD d := by
  cases l with
  | nil => simp at h
  | cons a as =>
    cases as with
    | nil => simp at h
    | cons b bs => simp [List.dropLast]

theorem drop_dropLast_getLastD {α : Type} (l : List α) (k : Nat) (hne : l ≠ [])
    (hk : k ≤ l.length - 1) (d : α) :
    l.dropLast.drop k ++ [l.getLastD d] = l.drop k := by
  have hsplit := List.dropLast_concat_getLast hne
  have hg : l.getLastD d = l.getLast hne := by
    simp [List.getLastD_eq_getLast?, List.getLast?_eq_getLast l hne]
  conv_rhs => rw [← hsplit]
  rw [List.drop_append_of_le_length (by simp only [List.length_dropLast]; omega), hg]

/-- C9: ObjectSetting.transform resolves None and the empty string to
None; on a dotted path whose prefixes all fail to import it raises
ImportError naming the first segment; when the longest importable prefix
is the first k segments it attribute-walks the remaining segments from
that module; and the walk raises AttributeError at the first missing
attribute segment. -/
theorem C9_object_transform :
    (∀ env, objectTransform env Option.none = .ok Option.none)
    ∧ (∀ env, objectTransform env (some "") = .ok Option.none)
    ∧ (∀ env p, p ≠ "" → 2 ≤ (splitDots p).length →
        (∀ j, 1 ≤ j → j ≤ (splitDots p).length - 1 →
          env.modules.lookup (joinDots ((splitDots p).take j)) = Option.none) →
        objectTransform env (some p)
          = .error (.importError
              ("No module named \x27" ++ (splitDots p).headD "" ++ "\x27")))
    ∧ (∀ env p k m, p ≠ "" → 1 ≤ k → k ≤ (splitDots p).length - 1 →
        env.modules.lookup (joinDots ((splitDots p).take k)) = some m →
        (∀ j, k < j → j ≤ (splitDots p).length - 1 →
          env.modules.lookup (joinDots ((splitDots p).take j)) = Option.none) →
        objectTransform env (some p) = (attrWalk m ((splitDots p).drop k)).map some)
    ∧ (∀ o a rest, pyGetattr o a = Option.none →
        attrWalk o (a :: rest)
          = .error (.attributeError ("object has no attribute \x27" ++ a ++ "\x27"))) := by
  refine ⟨?_, ?_, ?_, ?_, ?_⟩
  · intro env; rfl
  · intro env; rfl
  · intro env p hp h2 hall
    have hall' : ∀ j, 1 ≤ j → j ≤ (splitDots p).dropLast.length →
        env.modules.lookup (joinDots ((splitDots p).dropLast.take j)) = Option.none := by
      intro j h1 h2'
      simp only [List.length_dropLast] at h2'
      rw [dropLast_take_eq _ j h2']
      exact hall j h1 h2'
    have hne : (splitDots p).dropLast ≠ [] := by
      refine List.length_pos.mp ?_
      simp only [List.length_dropLast]
      omega
    simp only [objectTransform, if_neg hp]
    rw [moduleLoop_fail env (splitDots p).dropLast.length _ _ (Nat.le_refl _) hne hall']
    rw [dropLast_headD _ h2]
  · intro env p k m hp hk1 hk2 hsome hfail
    have hkd : k ≤ (splitDots p).dropLast.length := by
      simp only [List.length_dropLast]
      omega
    have hsome' : env.modules.lookup
        (joinDots ((splitDots p).dropLast.take k)) = some m := by
      rw [dropLast_take_eq _ k (by simp only [List.length_dropLast] at hkd; omega)]
      exact hsome
    have hfail' : ∀ j, k < j → j ≤ (splitDots p).dropLast.length →
        env.modules.lookup (joinDots ((splitDots p).dropLast.take j)) = Option.none := by
      intro j hj1 hj2
      simp only [List.length_dropLast] at hj2
      rw [dropLast_take_eq _ j hj2]
      exact hfail j hj1 hj2
    have hne : splitDots p ≠ [] := by
      refine List.length_pos.mp ?_
      omega
    simp only [objectTransform, if_neg hp]
    rw [moduleLoop_success env (splitDots p).dropLast.length _ _ k m (Nat.le_refl _)
      hk1 hkd hsome' hfail']
    rw [drop_dropLast_getLastD (splitDots p) k hne hk2]
  · intro o a rest h
    simp [attrWalk, h]

/-- C9 witness: a two-segment module a.b with attribute c; resolution of
a.b.c walks to c, an unimportable x.y raises ImportError on x, a missing
attribute zz raises AttributeError, and the None path resolves to None. -/
theorem C9_witness :
    objectTransform ⟨[("a.b", PyObj.node "b" [("c", PyObj.node "c" [])])]⟩ (some "a.b.c")
      = .ok (some (PyObj.node "c" []))
    ∧ objectTransform ⟨[("a.b", PyObj.node "b" [("c", PyObj.node "c" [])])]⟩ (some "x.y")
      = .error (.importError ("No module named \x27" ++ "x" ++ "\x27"))
    ∧ objectTransform ⟨[("a.b", PyObj.node "b" [("c", PyObj.node "c" [])])]⟩ (some "a.b.zz")
      = .error (.attributeError ("object has no attribute \x27" ++ "zz" ++ "\x27"))
    ∧ objectTransform ⟨[("a.b", PyObj.node "b" [("c", PyObj.node "c" [])])]⟩ Option.none
      = .ok Option.none := by
  refine ⟨?_, ?_, ?_, ?_⟩
  · have h := C9_object_transform.2.2.2.1
      ⟨[("a.b", PyObj.node "b" [("c", PyObj.node "c" [])])]⟩ "a.b.c" 2
      (PyObj.node "b" [("c", PyObj.node "c" [])])
      (by decide) (by decide) (by decide) rfl
      (by intro j h1 h2; simp [splitDots, splitDotsChars] at h2; omega)
    rw [h]
    rfl
  · have h := C9_object_transform.2.2.1
      ⟨[("a.b", PyObj.node "b" [("c", PyObj.node "c" [])])]⟩ "x.y"
      (by decide) (by decide)
      (by
        intro j h1 h2
        simp [splitDots, splitDotsChars] at h2
        have : j = 1 := by omega
        subst this
        rfl)
    rw [h]
    rfl
  · have h := C9_object_transform.2.2.2.1
      ⟨[("a.b", PyObj.node "b" [("c", PyObj.node "c" [])])]⟩ "a.b.zz" 2
      (PyObj.node "b" [("c", PyObj.node "c" [])])
      (by decide) (by decide) (by decide) rfl
      (by intro j h1 h2; simp [splitDots, splitDotsChars] at h2; omega)
    rw [h]
    rfl
  · exact C9_object_transform.1 ⟨[("a.b", PyObj.node "b" [("c", PyObj.node "c" [])])]⟩
